import Mathlib

/-!
Verification of the SMI conformance orchestration (`adapter/smi.go`) and the
kubeconfig auth-info filter (`adapter/configure.go`) of the
meshery-adapter-library repository.

External collaborators (the meshery kubernetes client constructor, manifest
fetch/apply, service-endpoint resolution, and the remote conformance-tool
session) are modelled as an oracle record `SMIWorld` fixing the outcome of
each call, and filesystem accessibility as a boolean oracle over paths.
-/

namespace Adapter

/-- Detail is one record of the aggregated SMI conformance report
(struct `Detail` in smi.go). -/
structure Detail where
  SmiSpecification : String
  SmiVersion : String
  Time : String
  Assertions : String
  Result : String
  Reason : String
  Capability : String
  Status : String
deriving Repr, DecidableEq

/-- Response is the report returned by `RunSMITest`
(struct `Response` in smi.go); `MoreDetails` models the `[]*Detail` slice. -/
structure Response where
  ID : String
  Date : String
  MeshName : String
  MeshVersion : String
  CasesPassed : String
  PassingPercentage : String
  Status : String
  MoreDetails : List Detail
deriving Repr, DecidableEq

/-- Raw per-assertion record returned by the remote smi-conformance tool
(the external `conformance` package's detail message). The fields are those
read by `runConformanceTest`, together with `Smiversion`, the specification
version the spec says each raw record carries. -/
structure ConformanceDetail where
  Smispec : String
  Smiversion : String
  Time : String
  Assertions : String
  Result : String
  Reason : String
  Capability : String
  Status : String
deriving Repr, DecidableEq

/-- Raw aggregate result returned by the remote tool's `RunTest` call:
aggregate pass count, pass percentage and the ordered raw assertion list. -/
structure ConformanceResult where
  Casespassed : String
  Passpercent : String
  Details : List ConformanceDetail
deriving Repr, DecidableEq

/-- Modelled from the spec: the per-stage error labels returned by
`RunSMITest` (`ErrSmiInit`, `ErrInstallSmi`, `ErrConnectSmi`, `ErrRunSmi`,
`ErrDeleteSmi`), constructed in the repository's error definitions which are
not under src/; each wraps the underlying error message. -/
inductive SmiError where
  | ErrSmiInit (msg : String)
  | ErrInstallSmi (msg : String)
  | ErrConnectSmi (msg : String)
  | ErrRunSmi (msg : String)
  | ErrDeleteSmi (msg : String)
deriving Repr, DecidableEq

/-- Record of one collaborator invocation made by `RunSMITest`, carrying the
manifest / service-name / namespace arguments it passes (smi.go): `install`
and `delete` receive `(opts.Manifest, opts.Namespace)`, `connect` receives
`("smi-conformance", opts.Namespace)`. -/
inductive Call where
  | install (manifest ns : String)
  | connect (name ns : String)
  | run
  | delete (manifest ns : String)
deriving Repr, DecidableEq

/-- SMITestOptions from smi.go (the `Ctx` field is dropped; labels and
maps of strings become association lists). The Go doc comment on
`Namespace` states: Namespace is the namespace where the SMI conformance
must be installed. Defaults to "meshery". -/
structure SMITestOptions where
  OperationID : String
  Namespace : String
  Manifest : String
  Labels : List (String × String)
  Annotations : List (String × String)
deriving Repr, DecidableEq

/-- Fixed outcomes of the external collaborators one `RunSMITest` invocation
depends on: `mesherykube.New`, the install helper (manifest fetch + apply),
the connect helper (endpoint resolution), and — inside
`runConformanceTest` — `conformance.CreateClient`, `RunTest` and `Close`,
plus the delete helper. `none` / `Except.ok` means the call succeeds. -/
structure SMIWorld where
  newKclientErr : Option String
  installErr : Option String
  connectErr : Option String
  createClientErr : Option String
  runTestResult : Except String ConformanceResult
  closeErr : Option String
  deleteErr : Option String
deriving Repr

/-- Per-record shape transformation applied by `runConformanceTest` to each
raw assertion record (the loop body at smi.go lines 202-216): every field
read from the raw record is copied into the `Detail`; the `SmiVersion`
field is never assigned there and keeps the zero value `""`. -/
def toDetail (d : ConformanceDetail) : Detail :=
  { SmiSpecification := d.Smispec
    SmiVersion := ""
    Time := d.Time
    Assertions := d.Assertions
    Result := d.Result
    Reason := d.Reason
    Capability := d.Capability
    Status := d.Status }

/-- runConformanceTest from smi.go: create the conformance client, issue
`RunTest`, copy the aggregate pass count / percentage and the mapped detail
list into the response, then close the client. Returns the (possibly
updated) response together with the error outcome; on `CreateClient` or
`RunTest` failure the response is returned untouched, while a `Close`
failure happens after the results were already written. -/
def runConformanceTest (w : SMIWorld) (response : Response) :
    Response × Option String :=
  match w.createClientErr with
  | some e => (response, some e)
  | none =>
    match w.runTestResult with
    | Except.error e => (response, some e)
    | Except.ok result =>
      let response' := { response with
        CasesPassed := result.Casespassed
        PassingPercentage := result.Passpercent
        MoreDetails := result.Details.map toDetail }
      match w.closeErr with
      | some e => (response', some e)
      | none => (response', none)

/-- The zero-valued `Response{}` that `RunSMITest` returns when creating the
meshery kubernetes client fails (smi.go line 90). -/
def emptyResponse : Response :=
  { ID := ""
    Date := ""
    MeshName := ""
    MeshVersion := ""
    CasesPassed := ""
    PassingPercentage := ""
    Status := ""
    MoreDetails := [] }

/-- The response literal built at smi.go lines 103-112 before any phase
runs; `date` stands for `time.Now().Format(time.RFC3339)`. -/
def initialResponse (adapterName adapterVersion date : String)
    (opts : SMITestOptions) : Response :=
  { ID := opts.OperationID
    Date := date
    MeshName := adapterName
    MeshVersion := adapterVersion
    CasesPassed := "0"
    PassingPercentage := "0"
    Status := "deploying"
    MoreDetails := [] }

/-- Outcome of one `RunSMITest` invocation: the returned response, the
returned error (labelled per stage), and the ordered list of phase
collaborator invocations that were made. -/
structure RunResult where
  response : Response
  error : Option SmiError
  calls : List Call
deriving Repr, DecidableEq

/-- RunSMITest from smi.go, with the collaborator outcomes supplied by `w`
and the adapter's name / version and the formatted current time supplied as
arguments. Mirrors the source line by line: an error from `mesherykube.New`
returns the empty `Response{}` under `ErrSmiInit`; otherwise the four
phases install / connect / run / delete execute in order, each failure
overwriting `Status` with that phase's name and returning that phase's
error label, and full success ends with `Status = "completed"`. The
namespace passed to the install, connect and delete helpers is
`opts.Namespace` verbatim — no defaulting is applied anywhere. -/
def RunSMITest (adapterName adapterVersion date : String) (w : SMIWorld)
    (opts : SMITestOptions) : RunResult :=
  match w.newKclientErr with
  | some e =>
    { response := emptyResponse
      error := some (SmiError.ErrSmiInit e)
      calls := [] }
  | none =>
    let response := initialResponse adapterName adapterVersion date opts
    match w.installErr with
    | some e =>
      { response := { response with Status := "installing" }
        error := some (SmiError.ErrInstallSmi e)
        calls := [Call.install opts.Manifest opts.Namespace] }
    | none =>
      match w.connectErr with
      | some e =>
        { response := { response with Status := "connecting" }
          error := some (SmiError.ErrConnectSmi e)
          calls := [Call.install opts.Manifest opts.Namespace,
                    Call.connect "smi-conformance" opts.Namespace] }
      | none =>
        let rc := runConformanceTest w response
        match rc.2 with
        | some e =>
          { response := { rc.1 with Status := "running" }
            error := some (SmiError.ErrRunSmi e)
            calls := [Call.install opts.Manifest opts.Namespace,
                      Call.connect "smi-conformance" opts.Namespace,
                      Call.run] }
        | none =>
          match w.deleteErr with
          | some e =>
            { response := { rc.1 with Status := "deleting" }
              error := some (SmiError.ErrDeleteSmi e)
              calls := [Call.install opts.Manifest opts.Namespace,
                        Call.connect "smi-conformance" opts.Namespace,
                        Call.run,
                        Call.delete opts.Manifest opts.Namespace] }
          | none =>
            { response := { rc.1 with Status := "completed" }
              error := none
              calls := [Call.install opts.Manifest opts.Namespace,
                        Call.connect "smi-conformance" opts.Namespace,
                        Call.run,
                        Call.delete opts.Manifest opts.Namespace] }

/-- AuthInfo entry of a parsed kubeconfig, restricted to the two fields
`filterK8sConfigAuthInfos` reads (configure.go): the inline certificate
byte slice and the certificate file path. -/
structure AuthInfo where
  ClientCertificateData : List Nat
  ClientCertificate : String
deriving Repr, DecidableEq

/-- Modelled from the spec: `ErrAuthInfosInvalidMsg`, the
no-usable-credentials error value defined in the repository's error file
(not under src/), returned when every auth-info entry was filtered out. -/
inductive ValidateError where
  | ErrAuthInfosInvalidMsg
deriving Repr, DecidableEq

/-- Body of the range loop of `filterK8sConfigAuthInfos` (configure.go):
an entry whose `ClientCertificateData` is empty survives only when
`os.Stat` on its `ClientCertificate` path succeeds; `accessible` is the
filesystem oracle standing for `os.Stat` succeeding. -/
def keepAuthInfo (accessible : String → Bool) (authInfo : AuthInfo) : Bool :=
  if authInfo.ClientCertificateData.length = 0 then
    accessible authInfo.ClientCertificate
  else
    true

/-- filterK8sConfigAuthInfos from configure.go: delete every invalid
authInfo from the map (modelled as an association list of named entries),
then fail with `ErrAuthInfosInvalidMsg` when no entry remains. Returns the
filtered map together with the error outcome. -/
def filterK8sConfigAuthInfos (accessible : String → Bool)
    (authInfos : List (String × AuthInfo)) :
    List (String × AuthInfo) × Option ValidateError :=
  let filtered := authInfos.filter (fun kv => keepAuthInfo accessible kv.2)
  if filtered.length = 0 then
    (filtered, some ValidateError.ErrAuthInfosInvalidMsg)
  else
    (filtered, none)

/-- Helper: `runConformanceTest` never touches the identity fields of the
response — ID, Date, MeshName, MeshVersion and Status are returned
unchanged on every path. -/
theorem runConformanceTest_preserves_meta (w : SMIWorld) (resp : Response) :
    (runConformanceTest w resp).1.ID = resp.ID
    ∧ (runConformanceTest w resp).1.Date = resp.Date
    ∧ (runConformanceTest w resp).1.MeshName = resp.MeshName
    ∧ (runConformanceTest w resp).1.MeshVersion = resp.MeshVersion
    ∧ (runConformanceTest w resp).1.Status = resp.Status := by
  unfold runConformanceTest
  cases w.createClientErr with
  | some e => exact ⟨rfl, rfl, rfl, rfl, rfl⟩
  | none =>
    cases w.runTestResult with
    | error e => exact ⟨rfl, rfl, rfl, rfl, rfl⟩
    | ok result =>
      cases w.closeErr with
      | some e => exact ⟨rfl, rfl, rfl, rfl, rfl⟩
      | none => exact ⟨rfl, rfl, rfl, rfl, rfl⟩

/-- Fixture: a raw assertion record with a non-empty specification version. -/
def rawDetail1 : ConformanceDetail :=
  { Smispec := "traffic-access"
    Smiversion := "v1alpha2"
    Time := "5s"
    Assertions := "3"
    Result := "passed"
    Reason := ""
    Capability := "Full"
    Status := "passed" }

/-- Fixture: a second raw assertion record. -/
def rawDetail2 : ConformanceDetail :=
  { Smispec := "traffic-split"
    Smiversion := "v1alpha3"
    Time := "7s"
    Assertions := "2"
    Result := "failed"
    Reason := "timeout"
    Capability := "Partial"
    Status := "failed" }

/-- Fixture: a remote-tool aggregate result with two assertion records. -/
def sampleResult : ConformanceResult :=
  { Casespassed := "8"
    Passpercent := "100"
    Details := [rawDetail1, rawDetail2] }

/-- Fixture: SMI test options with a non-empty namespace. -/
def opts0 : SMITestOptions :=
  { OperationID := "op-1"
    Namespace := "default"
    Manifest := "https://x/m.yaml"
    Labels := []
    Annotations := [] }

/-- Fixture: SMI test options whose Namespace field is left empty. -/
def optsEmptyNs : SMITestOptions :=
  { OperationID := "op-2"
    Namespace := ""
    Manifest := "https://x/m.yaml"
    Labels := []
    Annotations := [] }

/-- Fixture: world where creating the meshery kubernetes client fails. -/
def w_kclientFail : SMIWorld :=
  { newKclientErr := some "no rest config"
    installErr := none
    connectErr := none
    createClientErr := none
    runTestResult := Except.ok sampleResult
    closeErr := none
    deleteErr := none }

/-- Fixture: world where the install phase fails with a network error. -/
def w_installFail : SMIWorld :=
  { newKclientErr := none
    installErr := some "net"
    connectErr := none
    createClientErr := none
    runTestResult := Except.ok sampleResult
    closeErr := none
    deleteErr := none }

/-- Fixture: world where the remote test executes but the session close
fails. -/
def w_closeFail : SMIWorld :=
  { newKclientErr := none
    installErr := none
    connectErr := none
    createClientErr := none
    runTestResult := Except.ok sampleResult
    closeErr := some "broken pipe"
    deleteErr := none }

/-- Fixture: world where every collaborator call succeeds. -/
def w_allOk : SMIWorld :=
  { newKclientErr := none
    installErr := none
    connectErr := none
    createClientErr := none
    runTestResult := Except.ok sampleResult
    closeErr := none
    deleteErr := none }

/-- Claim C1, counterexample: when creating the meshery kubernetes client
fails, `RunSMITest` returns the zero-valued empty response — run
identifier, date, mesh name, mesh version and status are all `""` — yet
the invocation fails with `ErrSmiInit`; so a failing invocation can return
an empty report whose status names no phase, refuting the claim as
stated. -/
theorem c1_counterexample :
    (RunSMITest "istio" "v1.9" "2020-01-01T00:00:00Z" w_kclientFail opts0).response
        = emptyResponse
    ∧ (RunSMITest "istio" "v1.9" "2020-01-01T00:00:00Z" w_kclientFail opts0).error
        = some (SmiError.ErrSmiInit "no rest config")
    ∧ opts0.OperationID = "op-1"
    ∧ emptyResponse.ID = ""
    ∧ emptyResponse.Status = "" :=
  ⟨rfl, rfl, rfl, rfl, rfl⟩

/-- Claim C1, amended: for every invocation in which the meshery kubernetes
client is created successfully, the returned response carries the run
identifier, the timestamp, the subject name and version, and a status
string naming the last phase attempted (or "completed"); only when client
creation itself fails does `RunSMITest` return the empty response. -/
theorem c1_report_populated_when_client_created
    (adapterName adapterVersion date : String) (w : SMIWorld)
    (opts : SMITestOptions) (h : w.newKclientErr = none) :
    (RunSMITest adapterName adapterVersion date w opts).response.ID = opts.OperationID
    ∧ (RunSMITest adapterName adapterVersion date w opts).response.Date = date
    ∧ (RunSMITest adapterName adapterVersion date w opts).response.MeshName = adapterName
    ∧ (RunSMITest adapterName adapterVersion date w opts).response.MeshVersion
        = adapterVersion
    ∧ ((RunSMITest adapterName adapterVersion date w opts).response.Status = "installing"
      ∨ (RunSMITest adapterName adapterVersion date w opts).response.Status = "connecting"
      ∨ (RunSMITest adapterName adapterVersion date w opts).response.Status = "running"
      ∨ (RunSMITest adapterName adapterVersion date w opts).response.Status = "deleting"
      ∨ (RunSMITest adapterName adapterVersion date w opts).response.Status
          = "completed") := by
  obtain ⟨k, i, c, cc, rt, cl, dl⟩ := w
  cases k with
  | some e => simp at h
  | none =>
    cases i with
    | some e => exact ⟨rfl, rfl, rfl, rfl, Or.inl rfl⟩
    | none =>
      cases c with
      | some e => exact ⟨rfl, rfl, rfl, rfl, Or.inr (Or.inl rfl)⟩
      | none =>
        cases cc with
        | some e => exact ⟨rfl, rfl, rfl, rfl, Or.inr (Or.inr (Or.inl rfl))⟩
        | none =>
          cases rt with
          | error e => exact ⟨rfl, rfl, rfl, rfl, Or.inr (Or.inr (Or.inl rfl))⟩
          | ok result =>
            cases cl with
            | some e => exact ⟨rfl, rfl, rfl, rfl, Or.inr (Or.inr (Or.inl rfl))⟩
            | none =>
              cases dl with
              | some e =>
                exact ⟨rfl, rfl, rfl, rfl, Or.inr (Or.inr (Or.inr (Or.inl rfl)))⟩
              | none =>
                exact ⟨rfl, rfl, rfl, rfl, Or.inr (Or.inr (Or.inr (Or.inr rfl)))⟩

/-- Witness for claim C1 at a concrete failing run (install phase fails):
the report is still fully populated. -/
theorem c1_witness :
    (RunSMITest "istio" "v1.9" "2020-01-01T00:00:00Z" w_installFail opts0).response.ID
        = opts0.OperationID
    ∧ (RunSMITest "istio" "v1.9" "2020-01-01T00:00:00Z" w_installFail opts0).response.Date
        = "2020-01-01T00:00:00Z"
    ∧ (RunSMITest "istio" "v1.9" "2020-01-01T00:00:00Z"
        w_installFail opts0).response.MeshName = "istio"
    ∧ (RunSMITest "istio" "v1.9" "2020-01-01T00:00:00Z"
        w_installFail opts0).response.MeshVersion = "v1.9"
    ∧ ((RunSMITest "istio" "v1.9" "2020-01-01T00:00:00Z"
          w_installFail opts0).response.Status = "installing"
      ∨ (RunSMITest "istio" "v1.9" "2020-01-01T00:00:00Z"
          w_installFail opts0).response.Status = "connecting"
      ∨ (RunSMITest "istio" "v1.9" "2020-01-01T00:00:00Z"
          w_installFail opts0).response.Status = "running"
      ∨ (RunSMITest "istio" "v1.9" "2020-01-01T00:00:00Z"
          w_installFail opts0).response.Status = "deleting"
      ∨ (RunSMITest "istio" "v1.9" "2020-01-01T00:00:00Z"
          w_installFail opts0).response.Status = "completed") :=
  c1_report_populated_when_client_created "istio" "v1.9" "2020-01-01T00:00:00Z"
    w_installFail opts0 rfl

/-- Claim C4: with an all-successful world and an options value whose
Namespace field is empty, `RunSMITest` passes the empty string — not
"meshery" — as the target namespace to the install, connect and delete
collaborators, contradicting the documented default on
`SMITestOptions.Namespace`. -/
theorem c4_namespace_not_defaulted :
    (RunSMITest "istio" "v1.9" "2020-01-01T00:00:00Z" w_allOk optsEmptyNs).calls
        = [Call.install "https://x/m.yaml" "",
           Call.connect "smi-conformance" "",
           Call.run,
           Call.delete "https://x/m.yaml" ""]
    ∧ Call.install "https://x/m.yaml" "meshery"
        ∉ (RunSMITest "istio" "v1.9" "2020-01-01T00:00:00Z" w_allOk optsEmptyNs).calls
    ∧ Call.delete "https://x/m.yaml" "meshery"
        ∉ (RunSMITest "istio" "v1.9" "2020-01-01T00:00:00Z" w_allOk optsEmptyNs).calls := by
  refine ⟨rfl, ?_, ?_⟩ <;> decide

/-- Claim C2: the four phases run strictly in order and short-circuit on
the first failure — an install failure yields status "installing", the
`ErrInstallSmi` label and only the install collaborator invoked; a connect
failure yields "connecting", `ErrConnectSmi` and exactly install + connect
invoked; a run-phase failure yields "running", `ErrRunSmi` and no delete
invocation; a delete failure yields "deleting" and `ErrDeleteSmi`; and when
all four phases succeed the status is "completed" with no error. -/
theorem c2_phases_in_order_short_circuit
    (adapterName adapterVersion date : String) (w : SMIWorld)
    (opts : SMITestOptions) (h : w.newKclientErr = none) :
    (∀ e, w.installErr = some e →
      (RunSMITest adapterName adapterVersion date w opts).response.Status = "installing"
      ∧ (RunSMITest adapterName adapterVersion date w opts).error
          = some (SmiError.ErrInstallSmi e)
      ∧ (RunSMITest adapterName adapterVersion date w opts).calls
          = [Call.install opts.Manifest opts.Namespace])
    ∧ (∀ e, w.installErr = none → w.connectErr = some e →
      (RunSMITest adapterName adapterVersion date w opts).response.Status = "connecting"
      ∧ (RunSMITest adapterName adapterVersion date w opts).error
          = some (SmiError.ErrConnectSmi e)
      ∧ (RunSMITest adapterName adapterVersion date w opts).calls
          = [Call.install opts.Manifest opts.Namespace,
             Call.connect "smi-conformance" opts.Namespace])
    ∧ (∀ e, w.installErr = none → w.connectErr = none →
      (runConformanceTest w
          (initialResponse adapterName adapterVersion date opts)).2 = some e →
      (RunSMITest adapterName adapterVersion date w opts).response.Status = "running"
      ∧ (RunSMITest adapterName adapterVersion date w opts).error
          = some (SmiError.ErrRunSmi e)
      ∧ (RunSMITest adapterName adapterVersion date w opts).calls
          = [Call.install opts.Manifest opts.Namespace,
             Call.connect "smi-conformance" opts.Namespace,
             Call.run])
    ∧ (∀ e, w.installErr = none → w.connectErr = none →
      (runConformanceTest w
          (initialResponse adapterName adapterVersion date opts)).2 = none →
      w.deleteErr = some e →
      (RunSMITest adapterName adapterVersion date w opts).response.Status = "deleting"
      ∧ (RunSMITest adapterName adapterVersion date w opts).error
          = some (SmiError.ErrDeleteSmi e)
      ∧ (RunSMITest adapterName adapterVersion date w opts).calls
          = [Call.install opts.Manifest opts.Namespace,
             Call.connect "smi-conformance" opts.Namespace,
             Call.run,
             Call.delete opts.Manifest opts.Namespace])
    ∧ (w.installErr = none → w.connectErr = none →
      (runConformanceTest w
          (initialResponse adapterName adapterVersion date opts)).2 = none →
      w.deleteErr = none →
      (RunSMITest adapterName adapterVersion date w opts).response.Status = "completed"
      ∧ (RunSMITest adapterName adapterVersion date w opts).error = none
      ∧ (RunSMITest adapterName adapterVersion date w opts).calls
          = [Call.install opts.Manifest opts.Namespace,
             Call.connect "smi-conformance" opts.Namespace,
             Call.run,
             Call.delete opts.Manifest opts.Namespace]) := by
  refine ⟨?_, ?_, ?_, ?_, ?_⟩
  · intro e hi
    simp only [RunSMITest, h, hi]
    refine ⟨?_, ?_, ?_⟩ <;> trivial
  · intro e hi hc
    simp only [RunSMITest, h, hi, hc]
    refine ⟨?_, ?_, ?_⟩ <;> trivial
  · intro e hi hc hr
    simp only [RunSMITest, h, hi, hc, hr]
    refine ⟨?_, ?_, ?_⟩ <;> trivial
  · intro e hi hc hr hd
    simp only [RunSMITest, h, hi, hc, hr, hd]
    refine ⟨?_, ?_, ?_⟩ <;> trivial
  · intro hi hc hr hd
    simp only [RunSMITest, h, hi, hc, hr, hd]
    refine ⟨?_, ?_, ?_⟩ <;> trivial

/-- Witness for claim C2 at a concrete run whose install phase fails: the
status is "installing", the error is the install label wrapping the
underlying message, and only the install collaborator was invoked. -/
theorem c2_witness :
    (RunSMITest "istio" "v1.9" "2020-01-01T00:00:00Z"
        w_installFail opts0).response.Status = "installing"
    ∧ (RunSMITest "istio" "v1.9" "2020-01-01T00:00:00Z" w_installFail opts0).error
        = some (SmiError.ErrInstallSmi "net")
    ∧ (RunSMITest "istio" "v1.9" "2020-01-01T00:00:00Z" w_installFail opts0).calls
        = [Call.install "https://x/m.yaml" "default"] :=
  (c2_phases_in_order_short_circuit "istio" "v1.9" "2020-01-01T00:00:00Z"
      w_installFail opts0 rfl).1 "net" rfl

/-- Claim C9: when the install phase or the connect phase fails, the
returned response is exactly the initially constructed response with only
the Status field overwritten — so CasesPassed stays "0",
PassingPercentage stays "0", the detail list stays empty, and the run
identifier, date, mesh name and mesh version keep their construction-time
values. -/
theorem c9_early_failure_frame
    (adapterName adapterVersion date : String) (w : SMIWorld)
    (opts : SMITestOptions) (h : w.newKclientErr = none) :
    (∀ e, w.installErr = some e →
      (RunSMITest adapterName adapterVersion date w opts).response
        = { initialResponse adapterName adapterVersion date opts with
            Status := "installing" })
    ∧ (∀ e, w.installErr = none → w.connectErr = some e →
      (RunSMITest adapterName adapterVersion date w opts).response
        = { initialResponse adapterName adapterVersion date opts with
            Status := "connecting" })
    ∧ (initialResponse adapterName adapterVersion date opts).CasesPassed = "0"
    ∧ (initialResponse adapterName adapterVersion date opts).PassingPercentage = "0"
    ∧ (initialResponse adapterName adapterVersion date opts).MoreDetails = []
    ∧ (initialResponse adapterName adapterVersion date opts).ID = opts.OperationID
    ∧ (initialResponse adapterName adapterVersion date opts).Date = date
    ∧ (initialResponse adapterName adapterVersion date opts).MeshName = adapterName
    ∧ (initialResponse adapterName adapterVersion date opts).MeshVersion
        = adapterVersion := by
  refine ⟨?_, ?_, rfl, rfl, rfl, rfl, rfl, rfl, rfl⟩
  · intro e hi
    simp only [RunSMITest, h, hi]
  · intro e hi hc
    simp only [RunSMITest, h, hi, hc]

/-- Witness for claim C9 at a concrete run whose install phase fails. -/
theorem c9_witness :
    (RunSMITest "istio" "v1.9" "2020-01-01T00:00:00Z" w_installFail opts0).response
      = { initialResponse "istio" "v1.9" "2020-01-01T00:00:00Z" opts0 with
          Status := "installing" } :=
  (c9_early_failure_frame "istio" "v1.9" "2020-01-01T00:00:00Z"
      w_installFail opts0 rfl).1 "net" rfl

/-- Claim C10: when the remote test execution succeeds but closing the
client session fails, `RunSMITest` returns the run-phase error label with
status "running" while the returned response already carries the full test
results: the aggregate pass count, the pass percentage and every mapped
detail record. -/
theorem c10_close_failure_keeps_results
    (adapterName adapterVersion date : String) (w : SMIWorld)
    (opts : SMITestOptions) (result : ConformanceResult) (e : String)
    (hk : w.newKclientErr = none) (hi : w.installErr = none)
    (hc : w.connectErr = none) (hcc : w.createClientErr = none)
    (hr : w.runTestResult = Except.ok result) (hcl : w.closeErr = some e) :
    (RunSMITest adapterName adapterVersion date w opts).error
        = some (SmiError.ErrRunSmi e)
    ∧ (RunSMITest adapterName adapterVersion date w opts).response.Status = "running"
    ∧ (RunSMITest adapterName adapterVersion date w opts).response.CasesPassed
        = result.Casespassed
    ∧ (RunSMITest adapterName adapterVersion date w opts).response.PassingPercentage
        = result.Passpercent
    ∧ (RunSMITest adapterName adapterVersion date w opts).response.MoreDetails
        = result.Details.map toDetail := by
  simp only [RunSMITest, runConformanceTest, hk, hi, hc, hcc, hr, hcl]
  refine ⟨?_, ?_, ?_, ?_, ?_⟩ <;> trivial

/-- Witness for claim C10 at a concrete run where only the session close
fails: status "running", run error, and the two detail records present. -/
theorem c10_witness :
    (RunSMITest "istio" "v1.9" "2020-01-01T00:00:00Z" w_closeFail opts0).error
        = some (SmiError.ErrRunSmi "broken pipe")
    ∧ (RunSMITest "istio" "v1.9" "2020-01-01T00:00:00Z"
        w_closeFail opts0).response.Status = "running"
    ∧ (RunSMITest "istio" "v1.9" "2020-01-01T00:00:00Z"
        w_closeFail opts0).response.CasesPassed = sampleResult.Casespassed
    ∧ (RunSMITest "istio" "v1.9" "2020-01-01T00:00:00Z"
        w_closeFail opts0).response.PassingPercentage = sampleResult.Passpercent
    ∧ (RunSMITest "istio" "v1.9" "2020-01-01T00:00:00Z"
        w_closeFail opts0).response.MoreDetails = sampleResult.Details.map toDetail :=
  c10_close_failure_keeps_results "istio" "v1.9" "2020-01-01T00:00:00Z"
    w_closeFail opts0 sampleResult "broken pipe" rfl rfl rfl rfl rfl rfl

/-- Claim C3, counterexample: the raw record `rawDetail1` carries
specification version "v1alpha2", and the aggregated report built by
`runConformanceTest` contains for it exactly the record `toDetail
rawDetail1`, whose `SmiVersion` field is `""` — the specification version
is not preserved. -/
theorem c3_counterexample :
    rawDetail1.Smiversion = "v1alpha2"
    ∧ (runConformanceTest w_allOk
          (initialResponse "istio" "v1.9" "2020-01-01T00:00:00Z"
            opts0)).1.MoreDetails.head?
        = some (toDetail rawDetail1)
    ∧ (toDetail rawDetail1).SmiVersion = ""
    ∧ (toDetail rawDetail1).SmiVersion ≠ rawDetail1.Smiversion := by
  refine ⟨rfl, rfl, rfl, ?_⟩
  decide

/-- Claim C3, amended: for every raw assertion record the aggregator
constructs one Detail record preserving the specification identifier,
elapsed time, assertion text, result, failure reason, capability and
status; the specification version is not copied and is left empty. -/
theorem c3_detail_fields_preserved (d : ConformanceDetail) :
    (toDetail d).SmiSpecification = d.Smispec
    ∧ (toDetail d).Time = d.Time
    ∧ (toDetail d).Assertions = d.Assertions
    ∧ (toDetail d).Result = d.Result
    ∧ (toDetail d).Reason = d.Reason
    ∧ (toDetail d).Capability = d.Capability
    ∧ (toDetail d).Status = d.Status
    ∧ (toDetail d).SmiVersion = "" :=
  ⟨rfl, rfl, rfl, rfl, rfl, rfl, rfl, rfl⟩

/-- Claim C5: whenever the remote test call succeeds, the aggregated detail
list is exactly the element-wise image of the raw assertion list — the same
number of records in the same order, nothing dropped, duplicated or
reordered — and the aggregate pass count and pass percentage are copied
verbatim; this holds for raw lists of any length, 0, 1 or N. -/
theorem c5_aggregator_preserves_order (w : SMIWorld) (resp : Response)
    (result : ConformanceResult)
    (hcc : w.createClientErr = none) (hr : w.runTestResult = Except.ok result) :
    (runConformanceTest w resp).1.MoreDetails = result.Details.map toDetail
    ∧ (runConformanceTest w resp).1.MoreDetails.length = result.Details.length
    ∧ (runConformanceTest w resp).1.CasesPassed = result.Casespassed
    ∧ (runConformanceTest w resp).1.PassingPercentage = result.Passpercent := by
  cases hcl : w.closeErr <;>
    simp [runConformanceTest, hcc, hr, hcl]

/-- Witness for claim C5 at a concrete run with two raw records. -/
theorem c5_witness :
    (runConformanceTest w_allOk emptyResponse).1.MoreDetails
        = sampleResult.Details.map toDetail
    ∧ (runConformanceTest w_allOk emptyResponse).1.MoreDetails.length
        = sampleResult.Details.length
    ∧ (runConformanceTest w_allOk emptyResponse).1.CasesPassed
        = sampleResult.Casespassed
    ∧ (runConformanceTest w_allOk emptyResponse).1.PassingPercentage
        = sampleResult.Passpercent :=
  c5_aggregator_preserves_order w_allOk emptyResponse sampleResult rfl rfl

/-- Fixture: filesystem oracle under which no certificate path is
accessible. -/
def noAccess : String → Bool := fun _ => false

/-- Fixture: auth-info map in which every entry lacks inline data. -/
def authInfosAllBad : List (String × AuthInfo) :=
  [("alice", { ClientCertificateData := [], ClientCertificate := "/missing/a.crt" }),
   ("bob", { ClientCertificateData := [], ClientCertificate := "/missing/b.crt" })]

/-- Fixture: an auth-info entry carrying inline certificate data. -/
def inlineAuthInfo : AuthInfo :=
  { ClientCertificateData := [48, 49], ClientCertificate := "/ignored.crt" }

/-- Fixture: auth-info map mixing an inline-data entry with an entry whose
certificate path is inaccessible. -/
def authInfosMixed : List (String × AuthInfo) :=
  [("carol", inlineAuthInfo),
   ("dave", { ClientCertificateData := [], ClientCertificate := "/missing/d.crt" })]

/-- Claim C6: when every auth-info entry lacks inline certificate data and
its certificate path is inaccessible, the filter discards every entry and
fails with the no-usable-credentials error. -/
theorem c6_all_unusable_rejected (accessible : String → Bool)
    (authInfos : List (String × AuthInfo))
    (h : ∀ kv ∈ authInfos, kv.2.ClientCertificateData.length = 0
        ∧ accessible kv.2.ClientCertificate = false) :
    filterK8sConfigAuthInfos accessible authInfos
      = ([], some ValidateError.ErrAuthInfosInvalidMsg) := by
  have hfil : authInfos.filter (fun kv => keepAuthInfo accessible kv.2) = [] := by
    rw [List.filter_eq_nil_iff]
    intro kv hkv
    obtain ⟨h1, h2⟩ := h kv hkv
    simp [keepAuthInfo, h1, h2]
  simp [filterK8sConfigAuthInfos, hfil]

/-- Witness for claim C6 on a two-entry map with no inline data and no
accessible path. -/
theorem c6_witness :
    filterK8sConfigAuthInfos noAccess authInfosAllBad
      = ([], some ValidateError.ErrAuthInfosInvalidMsg) :=
  c6_all_unusable_rejected noAccess authInfosAllBad (by decide)

/-- Claim C7: an auth-info entry with non-empty inline certificate data is
always retained and the filter succeeds, regardless of the accessibility of
any other entry's certificate path. -/
theorem c7_inline_data_retained (accessible : String → Bool)
    (authInfos : List (String × AuthInfo)) (k : String) (ai : AuthInfo)
    (hmem : (k, ai) ∈ authInfos)
    (hdata : ai.ClientCertificateData.length ≠ 0) :
    (filterK8sConfigAuthInfos accessible authInfos).2 = none
    ∧ (k, ai) ∈ (filterK8sConfigAuthInfos accessible authInfos).1 := by
  have hkeep : keepAuthInfo accessible ai = true := by
    simp [keepAuthInfo, hdata]
  have hmem' : (k, ai) ∈ authInfos.filter (fun kv => keepAuthInfo accessible kv.2) :=
    List.mem_filter.mpr ⟨hmem, hkeep⟩
  have hlen :
      ¬(authInfos.filter (fun kv => keepAuthInfo accessible kv.2)).length = 0 := by
    intro h0
    rw [List.length_eq_zero] at h0
    rw [h0] at hmem'
    exact absurd hmem' (List.not_mem_nil _)
  constructor
  · simp only [filterK8sConfigAuthInfos]
    rw [if_neg hlen]
  · simp only [filterK8sConfigAuthInfos]
    rw [if_neg hlen]
    exact hmem'

/-- Witness for claim C7 on a map mixing an inline-data entry with an
unusable entry, under a filesystem with no accessible path. -/
theorem c7_witness :
    (filterK8sConfigAuthInfos noAccess authInfosMixed).2 = none
    ∧ ("carol", inlineAuthInfo) ∈ (filterK8sConfigAuthInfos noAccess authInfosMixed).1 :=
  c7_inline_data_retained noAccess authInfosMixed "carol" inlineAuthInfo
    (by decide) (by decide)

/-- Claim C8: with filesystem accessibility held fixed, the auth-info
filter is idempotent — applying it to its own output returns the same map
and the same success/failure outcome. -/
theorem c8_filter_idempotent (accessible : String → Bool)
    (authInfos : List (String × AuthInfo)) :
    filterK8sConfigAuthInfos accessible
        (filterK8sConfigAuthInfos accessible authInfos).1
      = filterK8sConfigAuthInfos accessible authInfos := by
  have hidem :
      (authInfos.filter (fun kv => keepAuthInfo accessible kv.2)).filter
          (fun kv => keepAuthInfo accessible kv.2)
        = authInfos.filter (fun kv => keepAuthInfo accessible kv.2) := by
    rw [List.filter_filter]
    simp
  by_cases h0 :
      (authInfos.filter (fun kv => keepAuthInfo accessible kv.2)).length = 0
  · have hnil := List.length_eq_zero.mp h0
    have h1 : filterK8sConfigAuthInfos accessible authInfos
        = ([], some ValidateError.ErrAuthInfosInvalidMsg) := by
      simp [filterK8sConfigAuthInfos, hnil]
    rw [h1]
    simp [filterK8sConfigAuthInfos]
  · have h1 : filterK8sConfigAuthInfos accessible authInfos
        = (authInfos.filter (fun kv => keepAuthInfo accessible kv.2), none) := by
      simp only [filterK8sConfigAuthInfos]
      rw [if_neg h0]
    rw [h1]
    simp only [filterK8sConfigAuthInfos, hidem]
    rw [if_neg h0]

end Adapter
